import Mathlib

/-!
# Barcode form handler (`static/js/app.js`): verification development

A shallow embedding of the browser-side form handler. JavaScript strings are
sequences of UTF-16 code units; the page state (`generatedBarcodes`,
`isProcessing`) and the observable effects (notifications, requests, saved
files) are threaded explicitly through a `World` record; the two backend
endpoints are an environment `Env` that answers the n-th request.
An `await`ed promise that rejects, or a `throw`, is the `error` side of
`Except`, carrying the `message` of the thrown `Error`.

Each handler is run from its first statement to its last with the answers of the
backend supplied by the environment; the pacing delays (`sleep`) carry no state and
are left out, and so is the styling of the page.
-/

namespace BarcodeApp

/-! ## Strings -/

/-- A UTF-16 code unit. -/
abbrev CodeUnit := Nat

/-- A JavaScript string: its sequence of UTF-16 code units (`length` counts them). -/
abbrev JSString := List CodeUnit

/-- UTF-16 encoding of one Unicode scalar value. -/
def utf16 (c : Char) : List CodeUnit :=
  if c.toNat < 0x10000 then [c.toNat]
  else [0xD800 + (c.toNat - 0x10000) / 0x400, 0xDC00 + (c.toNat - 0x10000) % 0x400]

/-- The JavaScript string written by a source literal. -/
def str (s : String) : JSString :=
  s.data.foldr (fun c acc => utf16 c ++ acc) []

/-- ToBoolean on a string: only the empty string is falsy. -/
def truthy (s : JSString) : Bool := !s.isEmpty

/-- ECMAScript `WhiteSpace` and `LineTerminator` code points, the set stripped by
`String.prototype.trim`: TAB, LF, VT, FF, CR, SP, NBSP, the `Zs` category, LS, PS, ZWNBSP. -/
def isWhiteSpace (c : CodeUnit) : Bool :=
  c == 0x09 || c == 0x0A || c == 0x0B || c == 0x0C || c == 0x0D || c == 0x20 ||
  c == 0xA0 || c == 0x1680 || (0x2000 ≤ c && c ≤ 0x200A) || c == 0x2028 ||
  c == 0x2029 || c == 0x202F || c == 0x205F || c == 0x3000 || c == 0xFEFF

/-- The method `String.prototype.trim`: strip white space from both ends. -/
def trim (s : JSString) : JSString :=
  (s.dropWhile isWhiteSpace).rdropWhile isWhiteSpace

/-- The method `String.prototype.split(sep)` for a separator of one code unit: the pieces
between separators, in order; a string without separator is its own single piece. -/
def split (sep : CodeUnit) : JSString → List JSString
  | [] => [[]]
  | c :: cs =>
    if c = sep then [] :: split sep cs
    else
      match split sep cs with
      | [] => [[c]]
      | p :: ps => (c :: p) :: ps

/-- Decimal rendering of a non-negative integer, most significant digit first. -/
def digitsAux : Nat → Nat → JSString → JSString
  | 0, _, acc => acc
  | fuel + 1, n, acc =>
    if n / 10 = 0 then (48 + n % 10) :: acc
    else digitsAux fuel (n / 10) ((48 + n % 10) :: acc)

/-- ToString on a non-negative integer, as a template literal renders it. -/
def numberToString (n : Nat) : JSString := digitsAux (n + 1) n []

/-! ## Data -/

/-- The request body of both endpoints: `{patient_name, patient_number}`. -/
structure PatientRecord where
  patient_name : JSString
  patient_number : JSString
deriving DecidableEq, Repr

/-! ## Batch parser -/

/-- The callback of the `forEach` of `parseBatchData`, as a step on the `patients` array:
split the line on comma, trim every part, and push a record when there are exactly two
parts and both are truthy. -/
def parseStep (patients : List PatientRecord) (line : JSString) : List PatientRecord :=
  let parts := (split 0x2C line).map trim
  if parts.length = 2 then
    let name := parts.getD 0 []
    let number := parts.getD 1 []
    if truthy name && truthy number then
      patients ++ [{ patient_name := name, patient_number := number }]
    else patients
  else patients

/-- The function `parseBatchData(csvData)`: split on line feed, keep the lines that are
truthy after trimming, and run the callback over them from an empty `patients` array. -/
def parseBatchData (csvData : JSString) : List PatientRecord :=
  let lines := (split 0x0A csvData).filter (fun line => truthy (trim line))
  lines.foldl parseStep []

/-- Following the spec's words: the record a line contributes. A blank or
whitespace-only line contributes nothing; any other line contributes a record
exactly when it splits on comma into two fields that are both non-empty after
trimming, and the record holds the two trimmed fields. -/
def lineRecord (line : JSString) : Option PatientRecord :=
  if trim line = [] then none
  else
    match split 0x2C line with
    | [name, number] =>
      if trim name ≠ [] ∧ trim number ≠ [] then
        some { patient_name := trim name, patient_number := trim number }
      else none
    | _ => none

/-! ## Regular expression of the number rule -/

/-- The fragment of regular-expression patterns used by the source: the
assertions `^` and `$` (no `m` flag), the class `\d`, concatenation and the
bounded greedy quantifier `{lo,hi}`. -/
inductive Regex where
  | lineStart : Regex
  | lineEnd : Regex
  | digit : Regex
  | seq : Regex → Regex → Regex
  | repeatRange : Regex → Nat → Nat → Regex

/-- A matcher position: how many code units lie before it, and the rest of the input. -/
abbrev Cursor := Nat × JSString

/-- The class `\d`: it matches exactly the ASCII digits `0`..`9`. -/
def isDigit (c : CodeUnit) : Bool := 0x30 ≤ c && c ≤ 0x39

/-- Greedy bounded repetition of a matcher `m`: at most `hi` further iterations, of
which `lo` are still required; longer matches are tried first. -/
def repeatMatch (m : Cursor → List Cursor) : Nat → Nat → Cursor → List Cursor
  | 0, lo, cur => if lo = 0 then [cur] else []
  | hi + 1, lo, cur =>
    (m cur).foldr (fun next acc => repeatMatch m hi (lo - 1) next ++ acc) []
      ++ (if lo = 0 then [cur] else [])

/-- Backtracking matcher: every cursor at which a match of the pattern that begins at
the given cursor can end, in the order a backtracking engine tries them. -/
def Regex.matchAt : Regex → Cursor → List Cursor
  | .lineStart, cur => if cur.1 = 0 then [cur] else []
  | .lineEnd, cur => if cur.2.isEmpty then [cur] else []
  | .digit, cur =>
    match cur.2 with
    | [] => []
    | c :: cs => if isDigit c then [(cur.1 + 1, cs)] else []
  | .seq a b, cur => (a.matchAt cur).foldr (fun mid acc => b.matchAt mid ++ acc) []
  | .repeatRange r lo hi, cur => repeatMatch r.matchAt hi lo cur

/-- Search for a match starting at the cursor or at any later position. -/
def Regex.searchFrom (re : Regex) : Nat → JSString → Bool
  | k, [] => !(re.matchAt (k, [])).isEmpty
  | k, c :: cs => !(re.matchAt (k, c :: cs)).isEmpty || re.searchFrom (k + 1) cs

/-- The method `RegExp.prototype.test` for a pattern without flags: is there a match anywhere. -/
def Regex.test (re : Regex) (s : JSString) : Bool := re.searchFrom 0 s

/-- The literal `/^\d{1,8}$/`. -/
def patientNumberPattern : Regex :=
  .seq .lineStart (.seq (.repeatRange .digit 1 8) .lineEnd)

/-! ## Page state and environment -/

/-- The parsed JSON body of `POST /api/generate-barcode`, as the endpoint contract gives
it: the boolean `success` flag, the `error` field, a string when the body has one and
`none` when it has none, and the remaining payload. A body that is no object makes the
handler throw inside its `try`, exactly like a body that cannot be read, and is covered by
the `error` side of `HttpResponse.body`. An `error` field that is present but not a string
(JSON `null`, a number) is outside this type: it is not the same as `none`, which stands
for the absent field only. -/
structure GenResult where
  success : Bool
  error : Option JSString
  payload : JSString
deriving DecidableEq, Repr

/-- Bytes of a response body. -/
abbrev Blob := List Nat

/-- A response that `fetch` resolved with: status line, and the outcome of reading
the body (`response.json()` or `response.blob()`, which may reject). -/
structure HttpResponse (β : Type) where
  status : Nat
  statusText : JSString
  body : Except JSString β

/-- The property `response.ok`: the status is in the range 200-299. -/
def HttpResponse.ok {β : Type} (response : HttpResponse β) : Bool :=
  200 ≤ response.status && response.status ≤ 299

/-- The backend, as seen from the page: the answer to the n-th request sent to each
endpoint (`error` when `fetch` itself rejects). -/
structure Env where
  fetchGenerate : Nat → PatientRecord → Except JSString (HttpResponse GenResult)
  fetchDownload : Nat → PatientRecord → Except JSString (HttpResponse Blob)

/-- One call of `showNotification(message, type)`. -/
structure Notification where
  message : JSString
  type : JSString
deriving DecidableEq, Repr

/-- One element of `generatedBarcodes`: `{result, data}` as pushed by the single form,
or `{result, patient}` as pushed by the batch form. -/
structure StoreEntry where
  result : GenResult
  data : Option PatientRecord
  patient : Option PatientRecord
deriving DecidableEq, Repr

/-- One element of the batch `results` array: `{success: true, data, patient}` or
`{success: false, error, patient}`. -/
inductive BatchResult where
  | succeeded (data : GenResult) (patient : PatientRecord)
  | failed (error : Option JSString) (patient : PatientRecord)
deriving DecidableEq, Repr

/-- The `success` property of a batch result. -/
def BatchResult.success : BatchResult → Bool
  | .succeeded _ _ => true
  | .failed _ _ => false

/-- The `patient` property of a batch result. -/
def BatchResult.patient : BatchResult → PatientRecord
  | .succeeded _ p => p
  | .failed _ p => p

/-- One block of the results container: a `barcode-item` with its Download button, or a
`border-danger` block whose text ends in `Error: ` followed by the rendered error. -/
inductive ResultRow where
  | item (patient : PatientRecord)
  | failure (patient : PatientRecord) (errorText : JSString)
deriving DecidableEq, Repr

/-- A file save triggered through a transient anchor: its `download` name and content. -/
structure SavedFile where
  download : JSString
  content : Blob
deriving DecidableEq, Repr

/-- The globals of the script together with what the page shows and has sent. -/
structure World where
  generatedBarcodes : List StoreEntry
  isProcessing : Bool
  notifications : List Notification
  statusMessage : Option JSString
  resultsVisible : Bool
  downloadAllVisible : Bool
  results : List ResultRow
  generateRequests : List PatientRecord
  downloadRequests : List PatientRecord
  savedFiles : List SavedFile
deriving DecidableEq, Repr

/-- The page right after loading: `generatedBarcodes = []`, `isProcessing = false`. -/
def World.initial : World :=
  { generatedBarcodes := [], isProcessing := false, notifications := [],
    statusMessage := none, resultsVisible := false, downloadAllVisible := false,
    results := [], generateRequests := [], downloadRequests := [], savedFiles := [] }

/-- The call `showNotification(message, type)`: one more notification on the page. -/
def showNotification (message type : JSString) (w : World) : World :=
  { w with notifications := w.notifications ++ [{ message := message, type := type }] }

/-- The call `showStatus(message)`: the status element shows the message. -/
def showStatus (message : JSString) (w : World) : World :=
  { w with statusMessage := some message }

/-- The call `hideStatus()`: the status element is hidden. -/
def hideStatus (w : World) : World :=
  { w with statusMessage := none }

/-- A value interpolated in a template literal: an absent property renders as `undefined`. -/
def templateString : Option JSString → JSString
  | some s => s
  | none => str "undefined"

/-- The expression `value || fallback` for an optional string: an absent or empty value is falsy. -/
def orElse (value : Option JSString) (fallback : JSString) : JSString :=
  match value with
  | some s => if truthy s then s else fallback
  | none => fallback

/-! ## Validation -/

/-- The function `validateForm(data)`: the returned boolean, and the notification shown on failure. -/
def validateForm (data : PatientRecord) (w : World) : Bool × World :=
  if !truthy data.patient_name || data.patient_name.length < 2 then
    (false, showNotification (str "Nama pasien minimal 2 karakter") (str "danger") w)
  else if !truthy data.patient_number || !patientNumberPattern.test data.patient_number then
    (false, showNotification (str "Nomor pasien maksimal 8 digit angka") (str "danger") w)
  else
    (true, w)

/-! ## API client -/

/-- What `generateBarcode` settles with, given what `fetch` settled with: a rejected
`fetch` and a status outside 200-299 throw; otherwise the outcome of `response.json()`. -/
def generateOutcome (fetched : Except JSString (HttpResponse GenResult)) :
    Except JSString GenResult :=
  match fetched with
  | .error message => .error message
  | .ok response =>
    if !response.ok then
      .error (str "HTTP " ++ numberToString response.status ++ str ": " ++ response.statusText)
    else response.body

/-- The function `generateBarcode(data)`: post the record to the generation endpoint and
settle with the outcome of the exchange. -/
def generateBarcode (env : Env) (data : PatientRecord) (w : World) :
    World × Except JSString GenResult :=
  ({ w with generateRequests := w.generateRequests ++ [data] },
    generateOutcome (env.fetchGenerate w.generateRequests.length data))

/-- The method `String.prototype.replace(searchValue, replaceValue)` for a search string of
one code unit and a replacement without `$` patterns: only the first occurrence is replaced. -/
def replace (searchValue : CodeUnit) (replaceValue : JSString) : JSString → JSString
  | [] => []
  | c :: cs => if c = searchValue then replaceValue ++ cs else c :: replace searchValue replaceValue cs

/-- The function `downloadSingleBarcode(patientNumber, patientName)`: post the record; on an
ok response read the blob and save it under the derived file name. The whole body is
inside one `try`/`catch`, so the returned promise always fulfils. -/
def downloadSingleBarcode (env : Env) (patientNumber patientName : JSString) (w : World) :
    World × Except JSString Unit :=
  let body : PatientRecord := { patient_name := patientName, patient_number := patientNumber }
  let sent := { w with downloadRequests := w.downloadRequests ++ [body] }
  match env.fetchDownload w.downloadRequests.length body with
  | .error message =>
    (showNotification (str "Download error: " ++ message) (str "danger") sent, .ok ())
  | .ok response =>
    if response.ok then
      match response.body with
      | .error message =>
        (showNotification (str "Download error: " ++ message) (str "danger") sent, .ok ())
      | .ok blob =>
        let saved := { sent with savedFiles := sent.savedFiles ++
          [{ download := patientNumber ++ str "_" ++ replace 0x20 (str "_") patientName
               ++ str ".png",
             content := blob }] }
        (showNotification (str "Barcode " ++ patientName ++ str " berhasil diunduh!")
          (str "success") saved, .ok ())
    else
      (showNotification (str "Gagal mengunduh barcode") (str "danger") sent, .ok ())

/-! ## Result aggregator -/

/-- The function `addBarcodeToResults(result, data)`: push `{result, data}` and append one
item block to the results container. -/
def addBarcodeToResults (result : GenResult) (data : PatientRecord) (w : World) : World :=
  { w with
    generatedBarcodes := w.generatedBarcodes ++
      [{ result := result, data := some data, patient := none }],
    resultsVisible := true,
    downloadAllVisible := true,
    results := w.results ++ [.item data] }

/-- One pass of the `forEach` of `displayBatchResults`: a success is pushed to the store
as `{result, patient}` and rendered as an item; a failure is only rendered. -/
def displayStep (acc : World × List ResultRow) (result : BatchResult) : World × List ResultRow :=
  match result with
  | .succeeded data patient =>
    ({ acc.1 with generatedBarcodes := acc.1.generatedBarcodes ++
        [{ result := data, data := none, patient := some patient }] },
      acc.2 ++ [.item patient])
  | .failed error patient =>
    (acc.1, acc.2 ++ [.failure patient (templateString error)])

/-- The function `displayBatchResults(results)`. -/
def displayBatchResults (results : List BatchResult) (w : World) : World :=
  let shown : World := { w with resultsVisible := true }
  let acc : World × List ResultRow := results.foldl displayStep (shown, [])
  let rendered : World := { acc.1 with results := acc.2 }
  if rendered.generatedBarcodes.length > 0 then { rendered with downloadAllVisible := true }
  else rendered

/-- The function `clearResults()`. -/
def clearResults (w : World) : World :=
  { w with resultsVisible := false, results := [], downloadAllVisible := false,
           generatedBarcodes := [] }

/-! ## Form handlers -/

/-- The function `handleSingleForm(e)`, given the values of the two inputs. -/
def handleSingleForm (env : Env) (singleName singleNumber : JSString) (w : World) : World :=
  if w.isProcessing then
    showNotification (str "Please wait for current operation to complete") (str "warning") w
  else
    let data : PatientRecord :=
      { patient_name := trim singleName, patient_number := trim singleNumber }
    let checked := validateForm data w
    if !checked.1 then checked.2
    else
      let started := showStatus (str "Processing...") { checked.2 with isProcessing := true }
      let called := generateBarcode env data started
      let done : World :=
        match called.2 with
        | .ok result =>
          if result.success then
            showNotification
              (str "Barcode untuk " ++ data.patient_name ++ str " berhasil dibuat!")
              (str "success") (addBarcodeToResults result data called.1)
          else
            showNotification (orElse result.error (str "Gagal membuat barcode"))
              (str "danger") called.1
        | .error message =>
          showNotification (str "Terjadi kesalahan: " ++ message) (str "danger") called.1
      hideStatus { done with isProcessing := false }

/-- The outcome pushed for one record by the inner `try`/`catch` of the batch loop. -/
def batchOutcome (patient : PatientRecord) : Except JSString GenResult → BatchResult
  | .ok result =>
    if result.success then .succeeded result patient
    else .failed result.error patient
  | .error message => .failed (some message) patient

/-- The `for` loop of `handleBatchForm` from index `i` on: the records still to process,
the `results` array so far, and the page. The second component is the `results` array
when the loop ends normally, or the message of an error escaping the loop body. -/
def batchLoop (env : Env) (total : Nat) :
    List PatientRecord → Nat → List BatchResult → World → World × Except JSString (List BatchResult)
  | [], _, results, w => (w, .ok results)
  | patient :: rest, i, results, w =>
    let status := showStatus (str "Processing " ++ numberToString (i + 1) ++ str "/"
      ++ numberToString total ++ str ": " ++ patient.patient_name) w
    let called := generateBarcode env patient status
    batchLoop env total rest (i + 1) (results ++ [batchOutcome patient called.2]) called.1

/-- The function `handleBatchForm(e)`, given the value of the text area. -/
def handleBatchForm (env : Env) (batchDataValue : JSString) (w : World) : World :=
  if w.isProcessing then
    showNotification (str "Please wait for current operation to complete") (str "warning") w
  else
    let batchData := trim batchDataValue
    if !truthy batchData then
      showNotification (str "Data pasien tidak boleh kosong") (str "danger") w
    else
      let patients := parseBatchData batchData
      if patients.length = 0 then
        showNotification (str "Tidak ada data pasien yang valid") (str "danger") w
      else
        let looped := batchLoop env patients.length patients 0 [] { w with isProcessing := true }
        let done : World :=
          match looped.2 with
          | .ok results =>
            let successCount := (results.filter (fun (r : BatchResult) => r.success)).length
            showNotification
              (numberToString successCount ++ str " dari " ++ numberToString patients.length
                ++ str " barcode berhasil dibuat!")
              (str "success") (displayBatchResults results looped.1)
          | .error message =>
            showNotification (str "Terjadi kesalahan: " ++ message) (str "danger") looped.1
        hideStatus { done with isProcessing := false }

/-! ## Bulk downloader -/

/-- The record a store entry names: `item.data` when present, else `item.patient`. -/
def entryRecord (item : StoreEntry) : Option PatientRecord :=
  match item.data with
  | some data => some data
  | none => item.patient

/-- The `for` loop of `downloadAllBarcodes` over the entries still to visit, with
the running `(successCount, errorCount)`. -/
def downloadLoop (env : Env) : List StoreEntry → Nat × Nat → World → (Nat × Nat) × World
  | [], counts, w => (counts, w)
  | item :: rest, counts, w =>
    match entryRecord item with
    | none => downloadLoop env rest (counts.1, counts.2 + 1) w
    | some record =>
      let called := downloadSingleBarcode env record.patient_number record.patient_name w
      match called.2 with
      | .ok _ => downloadLoop env rest (counts.1 + 1, counts.2) called.1
      | .error _ => downloadLoop env rest (counts.1, counts.2 + 1) called.1

/-- The function `downloadAllBarcodes()`. -/
def downloadAllBarcodes (env : Env) (w : World) : World :=
  if w.generatedBarcodes.length = 0 then
    showNotification (str "Tidak ada barcode untuk diunduh") (str "warning") w
  else
    let announced := showNotification
      (str "Mengunduh " ++ numberToString w.generatedBarcodes.length ++ str " barcode...")
      (str "info") w
    let looped := downloadLoop env announced.generatedBarcodes (0, 0) announced
    if looped.1.2 = 0 then
      showNotification (str "Berhasil mengunduh " ++ numberToString looped.1.1 ++ str " barcode!")
        (str "success") looped.2
    else
      showNotification (str "Selesai: " ++ numberToString looped.1.1 ++ str " berhasil, "
        ++ numberToString looped.1.2 ++ str " gagal") (str "warning") looped.2

/-! ## Runs of the page -/

/-- What the user can do on the page. Each action runs to completion before the next. -/
inductive Action where
  | submitSingle (singleName singleNumber : JSString)
  | submitBatch (batchDataValue : JSString)
  | downloadAll
  | clear

/-- The handler an action triggers. -/
def step (env : Env) (w : World) : Action → World
  | .submitSingle singleName singleNumber => handleSingleForm env singleName singleNumber w
  | .submitBatch batchDataValue => handleBatchForm env batchDataValue w
  | .downloadAll => downloadAllBarcodes env w
  | .clear => clearResults w

/-- The page after a sequence of actions. -/
def run (env : Env) (w : World) (actions : List Action) : World :=
  actions.foldl (step env) w

/-- The store entry pushed by the single form. -/
def singleEntry (result : GenResult) (data : PatientRecord) : StoreEntry :=
  { result := result, data := some data, patient := none }

/-- The store entry pushed by the batch form. -/
def batchEntry (result : GenResult) (patient : PatientRecord) : StoreEntry :=
  { result := result, data := none, patient := some patient }

/-- The outcomes of generation calls for the given records, when the first of them is
the `k`-th request to the endpoint. -/
def batchOutcomes (env : Env) : Nat → List PatientRecord → List BatchResult
  | _, [] => []
  | k, patient :: rest =>
    batchOutcome patient (generateOutcome (env.fetchGenerate k patient))
      :: batchOutcomes env (k + 1) rest

/-- Following the spec's words: the successful results of a submission of the given
records, in the order of the records, when the first call is the `k`-th request. -/
def successfulEntries (env : Env) (entry : GenResult → PatientRecord → StoreEntry) :
    Nat → List PatientRecord → List StoreEntry
  | _, [] => []
  | k, record :: rest =>
    match generateOutcome (env.fetchGenerate k record) with
    | .ok result =>
      if result.success then entry result record :: successfulEntries env entry (k + 1) rest
      else successfulEntries env entry (k + 1) rest
    | .error _ => successfulEntries env entry (k + 1) rest

/-- The store invariant: no submission is in flight, and every entry of
`generatedBarcodes` names a record that was posted to the generation endpoint in a call that
returned the entry's result, a body with `success` true. -/
def StoreOk (env : Env) (w : World) : Prop :=
  w.isProcessing = false ∧
  ∀ e ∈ w.generatedBarcodes,
    e.result.success = true ∧
    ∃ (k : Nat) (record : PatientRecord),
      w.generateRequests[k]? = some record ∧ entryRecord e = some record ∧
        generateOutcome (env.fetchGenerate k record) = .ok e.result

/-- The records a single submission posts: the trimmed values of the form when
`validateForm` accepts them, and nothing otherwise. -/
def singleRecords (singleName singleNumber : JSString) (w : World) : List PatientRecord :=
  if (validateForm { patient_name := trim singleName, patient_number := trim singleNumber }
      w).1 = true then
    [{ patient_name := trim singleName, patient_number := trim singleNumber }]
  else []

/-! ## Concrete scenarios -/

/-- A body with `success: true` under status 200. -/
def respondSuccess : Except JSString (HttpResponse GenResult) :=
  .ok { status := 200, statusText := str "OK",
        body := .ok { success := true, error := none, payload := str "png" } }

/-- A body with `success: false` and no `error` field under status 200. -/
def respondFailureNoError : Except JSString (HttpResponse GenResult) :=
  .ok { status := 200, statusText := str "OK",
        body := .ok { success := false, error := none, payload := [] } }

/-- A backend whose second generation call (request number 1) answers status 500, every
other generation call succeeds; downloads answer status 500 first and then reject. -/
def secondCallFails : Env :=
  { fetchGenerate := fun k _ =>
      if k = 1 then
        .ok { status := 500, statusText := str "Internal Server Error", body := .error [] }
      else respondSuccess,
    fetchDownload := fun k _ =>
      if k = 0 then .ok { status := 500, statusText := [], body := .ok [] }
      else .error (str "Failed to fetch") }

/-- A backend whose generation calls all answer `success: false` without an `error` field. -/
def failsWithoutMessage : Env :=
  { fetchGenerate := fun _ _ => respondFailureNoError,
    fetchDownload := fun _ _ => .error (str "Failed to fetch") }

/-- A batch text of three lines. -/
def threeLines : JSString := str "Ann,1\nBob,2\nCid,3"

/-- The records of the three lines. -/
def threeRecords : List PatientRecord :=
  [{ patient_name := str "Ann", patient_number := str "1" },
   { patient_name := str "Bob", patient_number := str "2" },
   { patient_name := str "Cid", patient_number := str "3" }]

/-- A page in the middle of a submission: the in-flight flag is set. -/
def busyWorld : World :=
  { World.initial with
    isProcessing := true,
    generatedBarcodes :=
      [{ result := { success := true, error := none, payload := [] },
         data := some { patient_name := str "Ann", patient_number := str "1" },
         patient := none }],
    generateRequests := [{ patient_name := str "Ann", patient_number := str "1" }] }

/-- A download response with status 200 and a body of four bytes. -/
def pngResponse : HttpResponse Blob :=
  { status := 200, statusText := str "OK", body := .ok [137, 80, 78, 71] }

/-- A backend whose every call succeeds. -/
def alwaysSucceeds : Env :=
  { fetchGenerate := fun _ _ => respondSuccess,
    fetchDownload := fun _ _ => .ok pngResponse }

/-! # Theorems -/

/-! ## Lemmas on strings -/

theorem trim_dropWhile (s : JSString) : (trim s).dropWhile isWhiteSpace = trim s := by
  unfold trim
  generalize hd : s.dropWhile isWhiteSpace = t
  rcases hu : t.rdropWhile isWhiteSpace with _ | ⟨a, u⟩
  · rfl
  · have hpre : (a :: u) <+: t := hu ▸ List.rdropWhile_prefix isWhiteSpace t
    obtain ⟨v, hv⟩ := hpre
    have hne : s.dropWhile isWhiteSpace ≠ [] := by rw [hd, ← hv]; simp
    have hhead := List.head_dropWhile_not isWhiteSpace s hne
    have ha : isWhiteSpace a = false := by
      simpa [hd, ← hv] using hhead
    simp [List.dropWhile_cons, ha]

theorem trim_idem (s : JSString) : trim (trim s) = trim s := by
  have h : trim (trim s) = ((trim s).dropWhile isWhiteSpace).rdropWhile isWhiteSpace := rfl
  rw [h, trim_dropWhile]
  exact List.rdropWhile_idempotent isWhiteSpace _

theorem truthy_iff (s : JSString) : truthy s = true ↔ s ≠ [] := by
  cases s <;> simp [truthy]

theorem parseBatchData_eq_foldl (csvData : JSString) :
    parseBatchData csvData
      = ((split 0x0A csvData).filter (fun line => truthy (trim line))).foldl parseStep [] := rfl

theorem parseStep_eq (patients : List PatientRecord) (line : JSString)
    (h : truthy (trim line) = true) :
    parseStep patients line = patients ++ (lineRecord line).toList := by
  have hne : trim line ≠ [] := (truthy_iff _).1 h
  unfold parseStep lineRecord
  rw [if_neg hne]
  rcases hs : split 0x2C line with _ | ⟨a, _ | ⟨b, _ | ⟨c, t⟩⟩⟩
  · simp
  · simp
  · by_cases ha : trim a = [] <;> by_cases hb : trim b = [] <;> simp [truthy, ha, hb]
  · simp

theorem foldl_parseStep (lines : List JSString) (init : List PatientRecord) :
    (lines.filter (fun line => truthy (trim line))).foldl parseStep init
      = init ++ lines.filterMap lineRecord := by
  induction lines generalizing init with
  | nil => simp
  | cons line rest ih =>
    by_cases h : truthy (trim line) = true
    · have hf : (line :: rest).filter (fun l => truthy (trim l))
          = line :: rest.filter (fun l => truthy (trim l)) := by
        simp [List.filter_cons, h]
      rw [hf, List.foldl_cons, ih, parseStep_eq _ _ h]
      cases hr : lineRecord line <;> simp [List.filterMap_cons, hr]
    · have hnil : trim line = [] := by
        by_contra hne
        exact h ((truthy_iff _).2 hne)
      have hr : lineRecord line = none := by simp [lineRecord, hnil]
      have hf : (line :: rest).filter (fun l => truthy (trim l))
          = rest.filter (fun l => truthy (trim l)) := by
        simp [List.filter_cons, h]
      rw [hf, ih]
      simp [List.filterMap_cons, hr]

theorem parseBatchData_eq_filterMap (csvData : JSString) :
    parseBatchData csvData = (split 0x0A csvData).filterMap lineRecord := by
  rw [parseBatchData_eq_foldl, foldl_parseStep]
  simp

/-- C2. `parseBatchData` returns, in the order of the lines of the input, exactly the
records that the lines contribute: one record of the two trimmed fields for each line that
is not blank and splits on comma into exactly two fields that are non-empty after
trimming, and nothing for any other line; the function is total, so no error is raised.
The text of five lines in the specification parses to the two records Alice and Bob. -/
theorem parseBatchData_spec :
    (∀ csvData : JSString,
      parseBatchData csvData = (split 0x0A csvData).filterMap lineRecord) ∧
    parseBatchData (str "Alice,123\nBob,456\n\n,789\nCarl,12,34")
      = [{ patient_name := str "Alice", patient_number := str "123" },
         { patient_name := str "Bob", patient_number := str "456" }] := by
  exact ⟨parseBatchData_eq_filterMap, by decide⟩

/-! ## Lemmas on the number pattern -/

theorem foldr_append_ne_nil {α β : Type} (f : α → List β) (l : List α) :
    l.foldr (fun x acc => f x ++ acc) [] ≠ [] ↔ ∃ x ∈ l, f x ≠ [] := by
  induction l with
  | nil => simp
  | cons a l ih =>
    simp only [List.foldr_cons, ne_eq, List.append_eq_nil, not_and, List.mem_cons,
      exists_eq_or_imp]
    constructor
    · intro h
      by_cases ha : f a = []
      · exact Or.inr (ih.1 (h ha))
      · exact Or.inl ha
    · rintro (ha | hx) hfa
      · exact absurd hfa ha
      · exact ih.2 hx

/-- A run of digits: the cursors with nothing left that a repetition of `\d` reaches are
reached exactly when the whole rest consists of digits and its length is within bounds. -/
theorem repeat_digit_to_end (hi : Nat) :
    ∀ (lo n : Nat) (s : JSString),
      (∃ cur ∈ repeatMatch (Regex.matchAt .digit) hi lo (n, s), cur.2 = []) ↔
        (lo ≤ s.length ∧ s.length ≤ hi ∧ ∀ c ∈ s, isDigit c = true) := by
  induction hi with
  | zero =>
    intro lo n s
    cases s with
    | nil => by_cases hlo : lo = 0 <;> simp [repeatMatch, hlo]
    | cons c cs => by_cases hlo : lo = 0 <;> simp [repeatMatch, hlo]
  | succ hi ih =>
    intro lo n s
    cases s with
    | nil =>
      by_cases hlo : lo = 0 <;> simp [repeatMatch, Regex.matchAt, hlo]
    | cons c cs =>
      have hmid : ∀ (cur : Cursor),
          cur ∈ repeatMatch (Regex.matchAt .digit) (hi + 1) lo (n, c :: cs) ↔
            ((isDigit c = true ∧ cur ∈ repeatMatch (Regex.matchAt .digit) hi (lo - 1) (n + 1, cs))
              ∨ (lo = 0 ∧ cur = (n, c :: cs))) := by
        intro cur
        by_cases hc : isDigit c = true <;> by_cases hlo : lo = 0 <;>
          simp [repeatMatch, Regex.matchAt, hc, hlo]
      constructor
      · rintro ⟨cur, hcur, hend⟩
        rcases (hmid cur).1 hcur with ⟨hc, hrest⟩ | ⟨_, hself⟩
        · obtain ⟨h1, h2, h3⟩ := (ih (lo - 1) (n + 1) cs).1 ⟨cur, hrest, hend⟩
          refine ⟨by simp only [List.length_cons]; omega, by simp only [List.length_cons]; omega, ?_⟩
          intro x hx
          rcases List.mem_cons.1 hx with rfl | hx
          · exact hc
          · exact h3 x hx
        · rw [hself] at hend
          simp at hend
      · rintro ⟨h1, h2, h3⟩
        have hc : isDigit c = true := h3 c (List.mem_cons_self _ _)
        simp only [List.length_cons] at h1 h2
        obtain ⟨cur, hcur, hend⟩ := (ih (lo - 1) (n + 1) cs).2
          ⟨by omega, by omega, fun x hx => h3 x (List.mem_cons_of_mem _ hx)⟩
        exact ⟨cur, (hmid cur).2 (Or.inl ⟨hc, hcur⟩), hend⟩

theorem pattern_matchAt_pos (k : Nat) (s : JSString) :
    patientNumberPattern.matchAt (k + 1, s) = [] := by
  simp [patientNumberPattern, Regex.matchAt]

theorem pattern_searchFrom_pos (s : JSString) :
    ∀ k : Nat, patientNumberPattern.searchFrom (k + 1) s = false := by
  induction s with
  | nil => intro k; simp [Regex.searchFrom, pattern_matchAt_pos]
  | cons c cs ih => intro k; simp [Regex.searchFrom, pattern_matchAt_pos, ih]

theorem pattern_matchAt_zero (s : JSString) :
    patientNumberPattern.matchAt (0, s) ≠ [] ↔
      (1 ≤ s.length ∧ s.length ≤ 8 ∧ ∀ c ∈ s, isDigit c = true) := by
  have h : patientNumberPattern.matchAt (0, s)
      = (repeatMatch (Regex.matchAt .digit) 8 1 (0, s)).foldr
          (fun mid acc => Regex.matchAt .lineEnd mid ++ acc) [] := by
    simp [patientNumberPattern, Regex.matchAt]
  rw [h, foldr_append_ne_nil, ← repeat_digit_to_end 8 1 0 s]
  constructor
  · rintro ⟨cur, hcur, hne⟩
    refine ⟨cur, hcur, ?_⟩
    by_contra hrest
    apply hne
    cases hc : cur.2 with
    | nil => exact absurd hc hrest
    | cons a t => simp [Regex.matchAt, hc]
  · rintro ⟨cur, hcur, hend⟩
    exact ⟨cur, hcur, by simp [Regex.matchAt, hend]⟩

/-- The number pattern accepts exactly the strings of one to eight ASCII digits. -/
theorem pattern_test_iff (s : JSString) :
    patientNumberPattern.test s = true ↔
      (1 ≤ s.length ∧ s.length ≤ 8 ∧ ∀ c ∈ s, isDigit c = true) := by
  rw [← pattern_matchAt_zero]
  cases s with
  | nil => simp [Regex.test, Regex.searchFrom]
  | cons c cs =>
    simp [Regex.test, Regex.searchFrom, pattern_searchFrom_pos]

theorem isDigit_iff (c : CodeUnit) : isDigit c = true ↔ (0x30 ≤ c ∧ c ≤ 0x39) := by
  simp [isDigit]

theorem lineRecord_fields (line : JSString) (r : PatientRecord) (h : lineRecord line = some r) :
    r.patient_name ≠ [] ∧ trim r.patient_name = r.patient_name ∧
      r.patient_number ≠ [] ∧ trim r.patient_number = r.patient_number := by
  unfold lineRecord at h
  split at h
  · exact absurd h (by simp)
  · split at h
    · split at h
      · rename_i hne
        have hr := Option.some.inj h
        subst hr
        exact ⟨hne.1, trim_idem _, hne.2, trim_idem _⟩
      · exact absurd h (by simp)
    · exact absurd h (by simp)

/-- What the guard of the parser does ensure: every record returned by `parseBatchData`
has a name and a number that are both non-empty and trimmed. -/
theorem parseBatchData_fields (csvData : JSString) (r : PatientRecord)
    (h : r ∈ parseBatchData csvData) :
    r.patient_name ≠ [] ∧ trim r.patient_name = r.patient_name ∧
      r.patient_number ≠ [] ∧ trim r.patient_number = r.patient_number := by
  rw [parseBatchData_eq_filterMap csvData] at h
  obtain ⟨line, _, hline⟩ := List.mem_filterMap.1 h
  exact lineRecord_fields line r hline

theorem parseBatchData_fields_witness :
    ({ patient_name := str "Bob", patient_number := str "12a" } : PatientRecord)
        ∈ parseBatchData (str "  Bob , 12a \n") ∧
      (str "Bob" ≠ [] ∧ trim (str "Bob") = str "Bob" ∧
        str "12a" ≠ [] ∧ trim (str "12a") = str "12a") :=
  ⟨by decide, parseBatchData_fields (str "  Bob , 12a \n")
    { patient_name := str "Bob", patient_number := str "12a" } (by decide)⟩

/-- C3, at two failing inputs. The line `Bob,12a` is parsed into a record whose number is
not made of digits, and the line `A,1` into a record whose name has one code unit;
`validateForm` rejects both. The single form, which calls `validateForm`, posts nothing
for these values and shows the validation message; the batch form, which never calls it,
posts each record to the generation endpoint and stores the result. -/
theorem batch_posts_unvalidated_record :
    (parseBatchData (str "Bob,12a")
        = [{ patient_name := str "Bob", patient_number := str "12a" }] ∧
      ¬ (∀ c ∈ str "12a", isDigit c = true) ∧
      (validateForm { patient_name := str "Bob", patient_number := str "12a" }
        World.initial).1 = false ∧
      (handleSingleForm alwaysSucceeds (str "Bob") (str "12a") World.initial).generateRequests
        = [] ∧
      (handleSingleForm alwaysSucceeds (str "Bob") (str "12a") World.initial).notifications
        = [{ message := str "Nomor pasien maksimal 8 digit angka", type := str "danger" }] ∧
      (handleBatchForm alwaysSucceeds (str "Bob,12a") World.initial).generateRequests
        = [{ patient_name := str "Bob", patient_number := str "12a" }] ∧
      (handleBatchForm alwaysSucceeds (str "Bob,12a") World.initial).generatedBarcodes
        = [batchEntry { success := true, error := none, payload := str "png" }
            { patient_name := str "Bob", patient_number := str "12a" }]) ∧
    (parseBatchData (str "A,1")
        = [{ patient_name := str "A", patient_number := str "1" }] ∧
      (validateForm { patient_name := str "A", patient_number := str "1" }
        World.initial).1 = false ∧
      (handleSingleForm alwaysSucceeds (str "A") (str "1") World.initial).generateRequests
        = [] ∧
      (handleSingleForm alwaysSucceeds (str "A") (str "1") World.initial).notifications
        = [{ message := str "Nama pasien minimal 2 karakter", type := str "danger" }] ∧
      (handleBatchForm alwaysSucceeds (str "A,1") World.initial).generateRequests
        = [{ patient_name := str "A", patient_number := str "1" }]) := by
  refine ⟨⟨by decide, by decide, by decide, by decide, by decide, by decide, by decide⟩,
    ⟨by decide, by decide, by decide, by decide, by decide⟩⟩

/-- C4. With a name that passes the name rule, `validateForm` returns true exactly when
the number has between 1 and 8 code units and every one of them is an ASCII digit
`0`..`9`; so a sign, a separator, or any leading or trailing character (a line feed
included) makes it return false. -/
theorem validateForm_number_rule (data : PatientRecord) (w : World)
    (hname : 2 ≤ data.patient_name.length) :
    (validateForm data w).1 = true ↔
      (1 ≤ data.patient_number.length ∧ data.patient_number.length ≤ 8 ∧
        ∀ c ∈ data.patient_number, 0x30 ≤ c ∧ c ≤ 0x39) := by
  have hne : data.patient_name ≠ [] := by
    intro h
    rw [h] at hname
    simp at hname
  have htruthy : truthy data.patient_name = true := (truthy_iff _).2 hne
  have hlen : ¬ data.patient_name.length < 2 := by omega
  unfold validateForm
  simp only [htruthy, hlen, Bool.not_true, Bool.false_or, decide_False, Bool.false_eq_true,
    if_false]
  by_cases ht : patientNumberPattern.test data.patient_number = true
  · have hspec := (pattern_test_iff _).1 ht
    have hnum : truthy data.patient_number = true := by
      apply (truthy_iff _).2
      intro h
      rw [h] at hspec
      simp at hspec
    simp only [hnum, ht, Bool.not_true, Bool.or_self, Bool.false_eq_true, if_false, true_iff]
    exact ⟨hspec.1, hspec.2.1, fun c hc => (isDigit_iff c).1 (hspec.2.2 c hc)⟩
  · have hfalse : patientNumberPattern.test data.patient_number = false := by
      simpa using ht
    simp only [hfalse, Bool.not_false, Bool.or_true, if_true, Bool.false_eq_true, false_iff]
    intro hspec
    exact ht ((pattern_test_iff _).2
      ⟨hspec.1, hspec.2.1, fun c hc => (isDigit_iff c).2 (hspec.2.2 c hc)⟩)

theorem validateForm_number_rule_witness :
    2 ≤ (str "Al").length ∧
    ((validateForm { patient_name := str "Al", patient_number := str "1234\n" }
        World.initial).1 = true ↔
      (1 ≤ (str "1234\n").length ∧ (str "1234\n").length ≤ 8 ∧
        ∀ c ∈ str "1234\n", 0x30 ≤ c ∧ c ≤ 0x39)) :=
  ⟨by decide, validateForm_number_rule
    { patient_name := str "Al", patient_number := str "1234\n" } World.initial (by decide)⟩

/-- C5. With a number that passes the number rule, `validateForm` applied to a name as
the single form submits it (trimmed) returns false when the trimmed name is empty or has
fewer than 2 code units, and returns true when it has at least 2. -/
theorem validateForm_name_rule (singleName number : JSString) (w : World)
    (hnum : truthy number = true ∧ patientNumberPattern.test number = true) :
    ((trim singleName = [] ∨ (trim singleName).length < 2) →
      (validateForm { patient_name := trim singleName, patient_number := number } w).1
        = false) ∧
    (2 ≤ (trim singleName).length →
      (validateForm { patient_name := trim singleName, patient_number := number } w).1
        = true) := by
  constructor
  · intro h
    have hlen : (trim singleName).length < 2 := by
      rcases h with h | h
      · rw [h]; decide
      · exact h
    simp [validateForm, hlen]
  · intro h
    have hne : trim singleName ≠ [] := by
      intro h0
      rw [h0] at h
      simp at h
    have hlen : ¬ (trim singleName).length < 2 := by omega
    simp [validateForm, (truthy_iff _).2 hne, hlen, hnum.1, hnum.2]

theorem validateForm_name_rule_witness :
    (truthy (str "1234") = true ∧ patientNumberPattern.test (str "1234") = true) ∧
    (((trim (str " A ") = [] ∨ (trim (str " A ")).length < 2) →
      (validateForm { patient_name := trim (str " A "), patient_number := str "1234" }
        World.initial).1 = false) ∧
    (2 ≤ (trim (str " A ")).length →
      (validateForm { patient_name := trim (str " A "), patient_number := str "1234" }
        World.initial).1 = true)) :=
  ⟨by decide, validateForm_name_rule (str " A ") (str "1234") World.initial (by decide)⟩

/-! ## Lemmas on the batch loop -/

theorem batchLoop_result (env : Env) (total : Nat) (patients : List PatientRecord) :
    ∀ (i : Nat) (results : List BatchResult) (w : World),
      (batchLoop env total patients i results w).2
        = .ok (results ++ batchOutcomes env w.generateRequests.length patients) := by
  induction patients with
  | nil => intro i results w; simp [batchLoop, batchOutcomes]
  | cons patient rest ih =>
    intro i results w
    simp [batchLoop, batchOutcomes, ih, generateBarcode, showStatus]

theorem batchLoop_world (env : Env) (total : Nat) (patients : List PatientRecord) :
    ∀ (i : Nat) (results : List BatchResult) (w : World),
      ∃ status : Option JSString,
        (batchLoop env total patients i results w).1
          = { w with generateRequests := w.generateRequests ++ patients,
                     statusMessage := status } := by
  induction patients with
  | nil => intro i results w; exact ⟨w.statusMessage, by simp [batchLoop]⟩
  | cons patient rest ih =>
    intro i results w
    obtain ⟨status, h⟩ := ih (i + 1)
      (results ++ [batchOutcome patient (generateBarcode env patient (showStatus
        (str "Processing " ++ numberToString (i + 1) ++ str "/" ++ numberToString total
          ++ str ": " ++ patient.patient_name) w)).2])
      (generateBarcode env patient (showStatus
        (str "Processing " ++ numberToString (i + 1) ++ str "/" ++ numberToString total
          ++ str ": " ++ patient.patient_name) w)).1
    refine ⟨status, ?_⟩
    rw [batchLoop, h]
    simp [generateBarcode, showStatus]

theorem batchOutcomes_length (env : Env) (patients : List PatientRecord) :
    ∀ k : Nat, (batchOutcomes env k patients).length = patients.length := by
  induction patients with
  | nil => intro k; rfl
  | cons patient rest ih => intro k; simp [batchOutcomes, ih]

theorem batchOutcomes_getElem? (env : Env) (patients : List PatientRecord) :
    ∀ (k i : Nat),
      (batchOutcomes env k patients)[i]?
        = (patients[i]?).map (fun patient =>
            batchOutcome patient (generateOutcome (env.fetchGenerate (k + i) patient))) := by
  induction patients with
  | nil => intro k i; simp [batchOutcomes]
  | cons patient rest ih =>
    intro k i
    cases i with
    | zero => simp [batchOutcomes]
    | succ i =>
      simp only [batchOutcomes, List.getElem?_cons_succ, ih]
      have : k + 1 + i = k + (i + 1) := by omega
      rw [this]

theorem batchOutcome_patient (patient : PatientRecord) (outcome : Except JSString GenResult) :
    (batchOutcome patient outcome).patient = patient := by
  unfold batchOutcome
  split
  · split <;> rfl
  · rfl

theorem batchOutcome_success (patient : PatientRecord) (outcome : Except JSString GenResult) :
    (batchOutcome patient outcome).success = true ↔
      ∃ result, outcome = .ok result ∧ result.success = true := by
  unfold batchOutcome
  split
  · rename_i result
    by_cases h : result.success = true
    · simp [h, BatchResult.success]
    · simp [h, BatchResult.success]
  · simp [BatchResult.success]

theorem parseBatchData_nil : parseBatchData [] = [] := by decide

theorem displayBatchResults_notifications (results : List BatchResult) (w : World) :
    (displayBatchResults results w).notifications = w.notifications := by
  have hfold : ∀ (rs : List BatchResult) (acc : World × List ResultRow),
      (rs.foldl displayStep acc).1.notifications = acc.1.notifications := by
    intro rs
    induction rs with
    | nil => intro acc; rfl
    | cons r rs ih =>
      intro acc
      rw [List.foldl_cons, ih]
      cases r <;> rfl
  unfold displayBatchResults
  simp only
  split <;> simp [hfold]

theorem displayBatchResults_generateRequests (results : List BatchResult) (w : World) :
    (displayBatchResults results w).generateRequests = w.generateRequests := by
  have hfold : ∀ (rs : List BatchResult) (acc : World × List ResultRow),
      (rs.foldl displayStep acc).1.generateRequests = acc.1.generateRequests := by
    intro rs
    induction rs with
    | nil => intro acc; rfl
    | cons r rs ih =>
      intro acc
      rw [List.foldl_cons, ih]
      cases r <;> rfl
  unfold displayBatchResults
  simp only
  split <;> simp [hfold]

/-- What `handleBatchForm` does once the guards are passed. -/
theorem handleBatchForm_idle (env : Env) (batchDataValue : JSString) (w : World)
    (hidle : w.isProcessing = false)
    (hne : parseBatchData (trim batchDataValue) ≠ []) :
    handleBatchForm env batchDataValue w =
      hideStatus { showNotification
        (numberToString ((batchOutcomes env w.generateRequests.length
            (parseBatchData (trim batchDataValue))).filter
              (fun (r : BatchResult) => r.success)).length
          ++ str " dari " ++ numberToString (parseBatchData (trim batchDataValue)).length
          ++ str " barcode berhasil dibuat!")
        (str "success")
        (displayBatchResults
          (batchOutcomes env w.generateRequests.length (parseBatchData (trim batchDataValue)))
          (batchLoop env (parseBatchData (trim batchDataValue)).length
            (parseBatchData (trim batchDataValue)) 0 []
            { w with isProcessing := true }).1) with isProcessing := false } := by
  have htrim : truthy (trim batchDataValue) = true := by
    apply (truthy_iff _).2
    intro h
    rw [h] at hne
    exact hne parseBatchData_nil
  have hlen : ¬ (parseBatchData (trim batchDataValue)).length = 0 := by
    intro h
    exact hne (List.length_eq_zero.1 h)
  unfold handleBatchForm
  simp only [hidle, htrim, hlen, Bool.false_eq_true, if_false, Bool.not_true]
  rw [batchLoop_result]
  simp

/-- C1. For a page that is idle and a text that parses to a non-empty list of records,
whatever the generation endpoint answers to each call: the loop of `handleBatchForm` ends
normally with a `results` array (it does not throw); the records were posted to the
generation endpoint once each, in input order; `results` is as long as the input; its i-th
element carries the i-th record and has `success` true exactly when the i-th call returned a
body with `success` true; and the final notification reports the number of successful
elements out of the number of records. -/
theorem handleBatchForm_batch (env : Env) (batchDataValue : JSString) (w : World)
    (patients : List PatientRecord)
    (hidle : w.isProcessing = false)
    (hparse : parseBatchData (trim batchDataValue) = patients)
    (hne : patients ≠ []) :
    ∃ results : List BatchResult,
      (batchLoop env patients.length patients 0 [] { w with isProcessing := true }).2
        = .ok results ∧
      (handleBatchForm env batchDataValue w).generateRequests
        = w.generateRequests ++ patients ∧
      results.length = patients.length ∧
      (∀ (i : Nat) (patient : PatientRecord), patients[i]? = some patient →
        ∃ r, results[i]? = some r ∧ r.patient = patient ∧
          (r.success = true ↔
            ∃ result,
              generateOutcome (env.fetchGenerate (w.generateRequests.length + i) patient)
                = .ok result ∧ result.success = true)) ∧
      (handleBatchForm env batchDataValue w).notifications
        = w.notifications ++
          [{ message := numberToString (results.filter (fun r => r.success)).length
               ++ str " dari " ++ numberToString patients.length
               ++ str " barcode berhasil dibuat!",
             type := str "success" }] := by
  subst hparse
  refine ⟨batchOutcomes env w.generateRequests.length (parseBatchData (trim batchDataValue)),
    ?_, ?_, batchOutcomes_length _ _ _, ?_, ?_⟩
  · rw [batchLoop_result]
    simp
  · rw [handleBatchForm_idle env batchDataValue w hidle hne]
    obtain ⟨status, h⟩ := batchLoop_world env (parseBatchData (trim batchDataValue)).length
      (parseBatchData (trim batchDataValue)) 0 [] { w with isProcessing := true }
    simp [hideStatus, showNotification, displayBatchResults_generateRequests, h]
  · intro i patient hi
    refine ⟨batchOutcome patient
      (generateOutcome (env.fetchGenerate (w.generateRequests.length + i) patient)), ?_,
      batchOutcome_patient _ _, batchOutcome_success _ _⟩
    rw [batchOutcomes_getElem?, hi]
    rfl
  · rw [handleBatchForm_idle env batchDataValue w hidle hne]
    obtain ⟨status, h⟩ := batchLoop_world env (parseBatchData (trim batchDataValue)).length
      (parseBatchData (trim batchDataValue)) 0 [] { w with isProcessing := true }
    simp [hideStatus, showNotification, displayBatchResults_notifications, h]

theorem handleBatchForm_batch_witness :
    (World.initial.isProcessing = false ∧
      parseBatchData (trim threeLines) = threeRecords ∧ threeRecords ≠ []) ∧
    (∃ results : List BatchResult,
      (batchLoop secondCallFails threeRecords.length threeRecords 0 []
          { World.initial with isProcessing := true }).2 = .ok results ∧
      (handleBatchForm secondCallFails threeLines World.initial).generateRequests
        = World.initial.generateRequests ++ threeRecords ∧
      results.length = threeRecords.length ∧
      (∀ (i : Nat) (patient : PatientRecord), threeRecords[i]? = some patient →
        ∃ r, results[i]? = some r ∧ r.patient = patient ∧
          (r.success = true ↔
            ∃ result,
              generateOutcome (secondCallFails.fetchGenerate
                (World.initial.generateRequests.length + i) patient)
                = .ok result ∧ result.success = true)) ∧
      (handleBatchForm secondCallFails threeLines World.initial).notifications
        = World.initial.notifications ++
          [{ message := numberToString (results.filter (fun r => r.success)).length
               ++ str " dari " ++ numberToString threeRecords.length
               ++ str " barcode berhasil dibuat!",
             type := str "success" }]) ∧
    ((handleBatchForm secondCallFails threeLines World.initial).results
        = [.item { patient_name := str "Ann", patient_number := str "1" },
           .failure { patient_name := str "Bob", patient_number := str "2" }
             (str "HTTP 500: Internal Server Error"),
           .item { patient_name := str "Cid", patient_number := str "3" }] ∧
      (handleBatchForm secondCallFails threeLines World.initial).notifications
        = [{ message := str "2 dari 3 barcode berhasil dibuat!", type := str "success" }]) :=
  ⟨⟨by decide, by decide, by decide⟩,
    handleBatchForm_batch secondCallFails threeLines World.initial threeRecords
      (by decide) (by decide) (by decide),
    by decide, by decide⟩

/-- C6. When `isProcessing` is true, `handleSingleForm` and `handleBatchForm`, with any
input and any backend, send no generation request, show exactly one more notification, the
warning asking to wait, and leave `isProcessing` and `generatedBarcodes` as they were:
the page is the old page plus that warning. -/
theorem busy_submission_rejected (env : Env) (singleName singleNumber batchDataValue : JSString)
    (w : World) (hbusy : w.isProcessing = true) :
    ∀ w' : World,
      (w' = handleSingleForm env singleName singleNumber w ∨
        w' = handleBatchForm env batchDataValue w) →
      w'.generateRequests = w.generateRequests ∧
      w'.notifications = w.notifications ++
        [{ message := str "Please wait for current operation to complete",
           type := str "warning" }] ∧
      w'.isProcessing = true ∧
      w'.generatedBarcodes = w.generatedBarcodes ∧
      w' = showNotification (str "Please wait for current operation to complete")
        (str "warning") w := by
  intro w' h
  have hw : w' = showNotification (str "Please wait for current operation to complete")
      (str "warning") w := by
    rcases h with h | h
    · rw [h]; simp [handleSingleForm, hbusy]
    · rw [h]; simp [handleBatchForm, hbusy]
  subst hw
  exact ⟨rfl, rfl, hbusy, rfl, rfl⟩

theorem busy_submission_rejected_witness :
    busyWorld.isProcessing = true ∧
    ∀ w' : World,
      (w' = handleSingleForm secondCallFails (str "Bob") (str "2") busyWorld ∨
        w' = handleBatchForm secondCallFails threeLines busyWorld) →
      w'.generateRequests = busyWorld.generateRequests ∧
      w'.notifications = busyWorld.notifications ++
        [{ message := str "Please wait for current operation to complete",
           type := str "warning" }] ∧
      w'.isProcessing = true ∧
      w'.generatedBarcodes = busyWorld.generatedBarcodes ∧
      w' = showNotification (str "Please wait for current operation to complete")
        (str "warning") busyWorld :=
  ⟨by decide, busy_submission_rejected secondCallFails (str "Bob") (str "2") threeLines
    busyWorld (by decide)⟩

/-! ## Lemmas on downloads -/

theorem replace_first (searchValue : CodeUnit) (replaceValue : JSString) (s : JSString) :
    (searchValue ∉ s ∧ replace searchValue replaceValue s = s) ∨
      ∃ before after, s = before ++ searchValue :: after ∧ searchValue ∉ before ∧
        replace searchValue replaceValue s = before ++ replaceValue ++ after := by
  induction s with
  | nil => exact Or.inl ⟨by simp, rfl⟩
  | cons c cs ih =>
    by_cases hc : c = searchValue
    · refine Or.inr ⟨[], cs, by simp [hc], by simp, ?_⟩
      simp [replace, hc]
    · rcases ih with ⟨hnot, hsame⟩ | ⟨before, after, hs, hnot, hrep⟩
      · refine Or.inl ⟨?_, by simp [replace, hc, hsame]⟩
        intro hmem
        rcases List.mem_cons.1 hmem with h | h
        · exact hc h.symm
        · exact hnot h
      · refine Or.inr ⟨c :: before, after, by simp [hs], ?_, by simp [replace, hc, hrep]⟩
        intro hmem
        rcases List.mem_cons.1 hmem with h | h
        · exact hc h.symm
        · exact hnot h

/-- C9. When the download endpoint answers with an ok status and a readable body,
`downloadSingleBarcode` saves exactly one file, named number, underscore, name', `.png`,
where name' is the name itself when it has no space, and otherwise the name with its first
space replaced by an underscore and everything before and after that space unchanged
(later spaces included). -/
theorem downloadSingleBarcode_filename (env : Env) (patientNumber patientName : JSString)
    (w : World) (response : HttpResponse Blob) (blob : Blob)
    (hfetch : env.fetchDownload w.downloadRequests.length
      { patient_name := patientName, patient_number := patientNumber } = .ok response)
    (hok : response.ok = true) (hblob : response.body = .ok blob) :
    ∃ name' : JSString,
      (downloadSingleBarcode env patientNumber patientName w).1.savedFiles
        = w.savedFiles ++
          [{ download := patientNumber ++ str "_" ++ name' ++ str ".png", content := blob }] ∧
      ((0x20 ∉ patientName ∧ name' = patientName) ∨
        ∃ before after, patientName = before ++ 0x20 :: after ∧ 0x20 ∉ before ∧
          name' = before ++ 0x5F :: after) := by
  refine ⟨replace 0x20 (str "_") patientName, ?_, ?_⟩
  · simp [downloadSingleBarcode, hfetch, hok, hblob, showNotification]
  · rcases replace_first 0x20 (str "_") patientName with h | ⟨before, after, hs, hnot, hrep⟩
    · exact Or.inl h
    · refine Or.inr ⟨before, after, hs, hnot, ?_⟩
      rw [hrep]
      simp [str, utf16]

theorem downloadSingleBarcode_filename_witness :
    (alwaysSucceeds.fetchDownload World.initial.downloadRequests.length
        { patient_name := str "Ann Lee Tan", patient_number := str "12" } = .ok pngResponse ∧
      pngResponse.ok = true ∧ pngResponse.body = .ok [137, 80, 78, 71]) ∧
    (∃ name' : JSString,
      (downloadSingleBarcode alwaysSucceeds (str "12") (str "Ann Lee Tan")
          World.initial).1.savedFiles
        = World.initial.savedFiles ++
          [{ download := str "12" ++ str "_" ++ name' ++ str ".png",
             content := [137, 80, 78, 71] }] ∧
      ((0x20 ∉ str "Ann Lee Tan" ∧ name' = str "Ann Lee Tan") ∨
        ∃ before after, str "Ann Lee Tan" = before ++ 0x20 :: after ∧ 0x20 ∉ before ∧
          name' = before ++ 0x5F :: after)) ∧
    (downloadSingleBarcode alwaysSucceeds (str "12") (str "Ann Lee Tan")
        World.initial).1.savedFiles
      = [{ download := str "12_Ann_Lee Tan.png", content := [137, 80, 78, 71] }] :=
  ⟨⟨rfl, by decide, rfl⟩,
    downloadSingleBarcode_filename alwaysSucceeds (str "12") (str "Ann Lee Tan") World.initial
      pngResponse [137, 80, 78, 71] rfl (by decide) rfl,
    by decide⟩

/-- The tally of the bulk-download loop does not depend on how the downloads went:
`errorCount` grows only on an entry without a record, `successCount` on every other. -/
theorem downloadLoop_counts (env : Env) (entries : List StoreEntry) :
    ∀ (counts : Nat × Nat) (w : World),
      (downloadLoop env entries counts w).1
        = (counts.1 + (entries.filter (fun e => (entryRecord e).isSome)).length,
           counts.2 + (entries.filter (fun e => !(entryRecord e).isSome)).length) := by
  induction entries with
  | nil => intro counts w; rfl
  | cons item rest ih =>
    intro counts w
    unfold downloadLoop
    cases hrec : entryRecord item with
    | none =>
      simp only [ih, List.filter_cons, hrec, Option.isSome_none, Bool.false_eq_true, if_false,
        Bool.not_false, if_true, List.length_cons]
      ext <;> simp
      omega
    | some record =>
      have hok : (downloadSingleBarcode env record.patient_number record.patient_name w).2
          = .ok () := by
        unfold downloadSingleBarcode
        simp only
        split
        · rfl
        · split
          · split <;> rfl
          · rfl
      simp only [hok, ih, List.filter_cons, hrec, Option.isSome_some, if_true, Bool.not_true,
        Bool.false_eq_true, if_false, List.length_cons]
      ext <;> simp
      omega

/-- C7, at a failing input. After a batch that stored two entries, a bulk download in
which the first request is answered with status 500 and the second is rejected by the
network visits both entries in stored order and saves nothing, yet the loop ends with
`successCount = 2` and `errorCount = 0`, and the final notification reports two
successful downloads. -/
theorem downloadAllBarcodes_counts_failures_as_success :
    (handleBatchForm secondCallFails threeLines World.initial).generatedBarcodes
      = [batchEntry { success := true, error := none, payload := str "png" }
           { patient_name := str "Ann", patient_number := str "1" },
         batchEntry { success := true, error := none, payload := str "png" }
           { patient_name := str "Cid", patient_number := str "3" }] ∧
    (downloadAllBarcodes secondCallFails
        (handleBatchForm secondCallFails threeLines World.initial)).downloadRequests
      = [{ patient_name := str "Ann", patient_number := str "1" },
         { patient_name := str "Cid", patient_number := str "3" }] ∧
    (downloadAllBarcodes secondCallFails
        (handleBatchForm secondCallFails threeLines World.initial)).savedFiles = [] ∧
    (downloadLoop secondCallFails
        (handleBatchForm secondCallFails threeLines World.initial).generatedBarcodes (0, 0)
        (handleBatchForm secondCallFails threeLines World.initial)).1 = (2, 0) ∧
    (downloadAllBarcodes secondCallFails
        (handleBatchForm secondCallFails threeLines World.initial)).notifications
      = [{ message := str "2 dari 3 barcode berhasil dibuat!", type := str "success" },
         { message := str "Mengunduh 2 barcode...", type := str "info" },
         { message := str "Gagal mengunduh barcode", type := str "danger" },
         { message := str "Download error: Failed to fetch", type := str "danger" },
         { message := str "Berhasil mengunduh 2 barcode!", type := str "success" }] := by
  refine ⟨by decide, by decide, by decide, by decide, by decide⟩

/-- C10, at a failing input. The generation endpoint answers status 200 with a body
`success: false` that has no `error` field. The single form surfaces the fixed message
`Gagal membuat barcode`; the batch form keeps the absent field and renders the failure
of that record as the text `undefined`. -/
theorem batch_failure_message_has_no_fallback :
    (handleSingleForm failsWithoutMessage (str "Bob") (str "12") World.initial).notifications
      = [{ message := str "Gagal membuat barcode", type := str "danger" }] ∧
    (batchLoop failsWithoutMessage 1 [{ patient_name := str "Bob", patient_number := str "12" }]
        0 [] { World.initial with isProcessing := true }).2
      = .ok [.failed none { patient_name := str "Bob", patient_number := str "12" }] ∧
    (handleBatchForm failsWithoutMessage (str "Bob,12") World.initial).results
      = [.failure { patient_name := str "Bob", patient_number := str "12" }
          (str "undefined")] ∧
    (handleBatchForm failsWithoutMessage (str "Bob,12") World.initial).notifications
      = [{ message := str "0 dari 1 barcode berhasil dibuat!", type := str "success" }] := by
  refine ⟨by decide, rfl, by decide, by decide⟩

/-! ## Lemmas on the store -/

/-- The store entry a batch result contributes. -/
theorem displayStep_fold_store (results : List BatchResult) :
    ∀ acc : World × List ResultRow,
      (results.foldl displayStep acc).1.generatedBarcodes
        = acc.1.generatedBarcodes ++ results.filterMap (fun r =>
            match r with
            | .succeeded data patient => some (batchEntry data patient)
            | .failed _ _ => none) := by
  induction results with
  | nil => intro acc; simp
  | cons r rs ih =>
    intro acc
    rw [List.foldl_cons, ih]
    cases r <;> simp [displayStep, batchEntry]

theorem displayBatchResults_store (results : List BatchResult) (w : World) :
    (displayBatchResults results w).generatedBarcodes
      = w.generatedBarcodes ++ results.filterMap (fun r =>
          match r with
          | .succeeded data patient => some (batchEntry data patient)
          | .failed _ _ => none) := by
  unfold displayBatchResults
  simp only
  split <;> simp [displayStep_fold_store]

theorem batchOutcomes_successful (env : Env) (patients : List PatientRecord) :
    ∀ k : Nat,
      (batchOutcomes env k patients).filterMap (fun r =>
          match r with
          | .succeeded data patient => some (batchEntry data patient)
          | .failed _ _ => none)
        = successfulEntries env batchEntry k patients := by
  induction patients with
  | nil => intro k; rfl
  | cons patient rest ih =>
    intro k
    simp only [batchOutcomes, successfulEntries]
    cases h : generateOutcome (env.fetchGenerate k patient) with
    | error message => simp [batchOutcome, ih]
    | ok result =>
      by_cases hs : result.success = true
      · simp [batchOutcome, hs, ih]
      · simp [batchOutcome, hs, ih]

theorem mem_successfulEntries (env : Env) (entry : GenResult → PatientRecord → StoreEntry)
    (records : List PatientRecord) :
    ∀ (k : Nat) (e : StoreEntry), e ∈ successfulEntries env entry k records →
      ∃ (j : Nat) (record : PatientRecord) (result : GenResult),
        records[j]? = some record ∧
        generateOutcome (env.fetchGenerate (k + j) record) = .ok result ∧
        result.success = true ∧ e = entry result record := by
  induction records with
  | nil => intro k e h; simp [successfulEntries] at h
  | cons record rest ih =>
    intro k e h
    have hrest : e ∈ successfulEntries env entry (k + 1) rest →
        ∃ (j : Nat) (record' : PatientRecord) (result : GenResult),
          (record :: rest)[j]? = some record' ∧
          generateOutcome (env.fetchGenerate (k + j) record') = .ok result ∧
          result.success = true ∧ e = entry result record' := by
      intro hmem
      obtain ⟨j, record', result, h1, h2, h3, h4⟩ := ih (k + 1) e hmem
      refine ⟨j + 1, record', result, by simpa using h1, ?_, h3, h4⟩
      have : k + (j + 1) = k + 1 + j := by omega
      rw [this]
      exact h2
    simp only [successfulEntries] at h
    cases hout : generateOutcome (env.fetchGenerate k record) with
    | error message =>
      rw [hout] at h
      exact hrest h
    | ok result =>
      rw [hout] at h
      by_cases hs : result.success = true
      · simp only [hs, if_true, List.mem_cons] at h
        rcases h with h | h
        · exact ⟨0, record, result, by simp, by simpa using hout, hs, h⟩
        · exact hrest h
      · simp only [hs, Bool.false_eq_true, if_false] at h
        exact hrest h

theorem validateForm_world (data : PatientRecord) (w : World) :
    (validateForm data w).2.generatedBarcodes = w.generatedBarcodes ∧
    (validateForm data w).2.generateRequests = w.generateRequests ∧
    (validateForm data w).2.isProcessing = w.isProcessing := by
  unfold validateForm
  split
  · exact ⟨rfl, rfl, rfl⟩
  · split <;> exact ⟨rfl, rfl, rfl⟩

/-- The records a single submission sends: the trimmed form values when they validate. -/
theorem handleSingleForm_idle (env : Env) (singleName singleNumber : JSString) (w : World)
    (hidle : w.isProcessing = false) :
    (handleSingleForm env singleName singleNumber w).generatedBarcodes
      = w.generatedBarcodes ++ successfulEntries env singleEntry w.generateRequests.length
          (singleRecords singleName singleNumber w) ∧
    (handleSingleForm env singleName singleNumber w).generateRequests
      = w.generateRequests ++ singleRecords singleName singleNumber w ∧
    (handleSingleForm env singleName singleNumber w).isProcessing = false := by
  obtain ⟨hv1, hv2, hv3⟩ := validateForm_world ⟨trim singleName, trim singleNumber⟩ w
  unfold handleSingleForm singleRecords
  simp only [hidle, Bool.false_eq_true, if_false]
  by_cases hvalid : (validateForm ⟨trim singleName, trim singleNumber⟩ w).1 = true
  · simp only [hvalid, Bool.not_true, Bool.false_eq_true, if_false, if_true,
      successfulEntries, generateBarcode, showStatus, hv2]
    cases hout : generateOutcome (env.fetchGenerate w.generateRequests.length
        ⟨trim singleName, trim singleNumber⟩) with
    | error message =>
      simp [hideStatus, showNotification, hv1, hv2]
    | ok result =>
      by_cases hs : result.success = true
      · simp [hs, hideStatus, showNotification, addBarcodeToResults, singleEntry, hv1, hv2]
      · simp [hs, hideStatus, showNotification, hv1, hv2]
  · simp [hvalid, successfulEntries, hv1, hv2, hv3, hidle]

theorem successfulEntries_nil (env : Env) (entry : GenResult → PatientRecord → StoreEntry)
    (k : Nat) : successfulEntries env entry k [] = [] := rfl

theorem handleBatchForm_store (env : Env) (batchDataValue : JSString) (w : World)
    (hidle : w.isProcessing = false) :
    (handleBatchForm env batchDataValue w).generatedBarcodes
      = w.generatedBarcodes ++ successfulEntries env batchEntry w.generateRequests.length
          (parseBatchData (trim batchDataValue)) ∧
    (handleBatchForm env batchDataValue w).generateRequests
      = w.generateRequests ++ parseBatchData (trim batchDataValue) ∧
    (handleBatchForm env batchDataValue w).isProcessing = false := by
  by_cases hne : parseBatchData (trim batchDataValue) = []
  · have hsame : handleBatchForm env batchDataValue w
        = showNotification (str "Data pasien tidak boleh kosong") (str "danger") w ∨
        handleBatchForm env batchDataValue w
        = showNotification (str "Tidak ada data pasien yang valid") (str "danger") w := by
      unfold handleBatchForm
      simp only [hidle, Bool.false_eq_true, if_false, hne, List.length_nil, if_true]
      by_cases ht : truthy (trim batchDataValue) = true
      · right; simp [ht]
      · left; simp [ht]
    rcases hsame with h | h <;>
      simp [h, hne, successfulEntries_nil, showNotification, hidle]
  · rw [handleBatchForm_idle env batchDataValue w hidle hne]
    obtain ⟨status, h⟩ := batchLoop_world env (parseBatchData (trim batchDataValue)).length
      (parseBatchData (trim batchDataValue)) 0 [] { w with isProcessing := true }
    refine ⟨?_, ?_, rfl⟩
    · simp [hideStatus, showNotification, displayBatchResults_store,
        batchOutcomes_successful, h]
    · simp [hideStatus, showNotification, displayBatchResults_generateRequests, h]

theorem downloadSingleBarcode_world (env : Env) (patientNumber patientName : JSString)
    (w : World) :
    (downloadSingleBarcode env patientNumber patientName w).1.generatedBarcodes
      = w.generatedBarcodes ∧
    (downloadSingleBarcode env patientNumber patientName w).1.generateRequests
      = w.generateRequests ∧
    (downloadSingleBarcode env patientNumber patientName w).1.isProcessing
      = w.isProcessing := by
  unfold downloadSingleBarcode
  simp only
  split
  · exact ⟨rfl, rfl, rfl⟩
  · split
    · split <;> exact ⟨rfl, rfl, rfl⟩
    · exact ⟨rfl, rfl, rfl⟩

theorem downloadLoop_world (env : Env) (entries : List StoreEntry) :
    ∀ (counts : Nat × Nat) (w : World),
      (downloadLoop env entries counts w).2.generatedBarcodes = w.generatedBarcodes ∧
      (downloadLoop env entries counts w).2.generateRequests = w.generateRequests ∧
      (downloadLoop env entries counts w).2.isProcessing = w.isProcessing := by
  induction entries with
  | nil => intro counts w; exact ⟨rfl, rfl, rfl⟩
  | cons item rest ih =>
    intro counts w
    unfold downloadLoop
    split
    · exact ih _ _
    · rename_i record _
      obtain ⟨h1, h2, h3⟩ :=
        downloadSingleBarcode_world env record.patient_number record.patient_name w
      simp only
      split
      · obtain ⟨g1, g2, g3⟩ := ih (counts.1 + 1, counts.2)
          (downloadSingleBarcode env record.patient_number record.patient_name w).1
        exact ⟨g1.trans h1, g2.trans h2, g3.trans h3⟩
      · obtain ⟨g1, g2, g3⟩ := ih (counts.1, counts.2 + 1)
          (downloadSingleBarcode env record.patient_number record.patient_name w).1
        exact ⟨g1.trans h1, g2.trans h2, g3.trans h3⟩

theorem downloadAllBarcodes_world (env : Env) (w : World) :
    (downloadAllBarcodes env w).generatedBarcodes = w.generatedBarcodes ∧
    (downloadAllBarcodes env w).generateRequests = w.generateRequests ∧
    (downloadAllBarcodes env w).isProcessing = w.isProcessing := by
  unfold downloadAllBarcodes
  split
  · exact ⟨rfl, rfl, rfl⟩
  · obtain ⟨h1, h2, h3⟩ := downloadLoop_world env
      (showNotification (str "Mengunduh " ++ numberToString w.generatedBarcodes.length
        ++ str " barcode...") (str "info") w).generatedBarcodes (0, 0)
      (showNotification (str "Mengunduh " ++ numberToString w.generatedBarcodes.length
        ++ str " barcode...") (str "info") w)
    simp only
    split
    · exact ⟨h1, h2, h3⟩
    · exact ⟨h1, h2, h3⟩

/-! ## The store invariant -/

theorem storeOk_initial (env : Env) : StoreOk env World.initial :=
  ⟨rfl, fun e he => absurd he (by simp [World.initial])⟩

theorem storeOk_submission (env : Env) (entry : GenResult → PatientRecord → StoreEntry)
    (records : List PatientRecord) (w w' : World)
    (hentry : ∀ result record,
      entryRecord (entry result record) = some record ∧ (entry result record).result = result)
    (hstore : w'.generatedBarcodes
      = w.generatedBarcodes ++ successfulEntries env entry w.generateRequests.length records)
    (hsent : w'.generateRequests = w.generateRequests ++ records)
    (hidle : w'.isProcessing = false)
    (hw : StoreOk env w) : StoreOk env w' := by
  refine ⟨hidle, fun e he => ?_⟩
  rw [hstore] at he
  rcases List.mem_append.1 he with hold | hnew
  · obtain ⟨hs, k, record, hk, hrec, hout⟩ := hw.2 e hold
    refine ⟨hs, k, record, ?_, hrec, hout⟩
    rw [hsent]
    have hlt : k < w.generateRequests.length := by
      by_contra hge
      rw [List.getElem?_eq_none (by omega)] at hk
      exact absurd hk (by simp)
    rw [List.getElem?_append_left hlt]
    exact hk
  · obtain ⟨j, record, result, hj, hout, hs, he'⟩ :=
      mem_successfulEntries env entry records _ e hnew
    subst he'
    refine ⟨by rw [(hentry result record).2]; exact hs,
      w.generateRequests.length + j, record, ?_, (hentry result record).1, ?_⟩
    · rw [hsent, List.getElem?_append_right (by omega)]
      simpa using hj
    · rw [(hentry result record).2]
      exact hout

theorem storeOk_step (env : Env) (w : World) (a : Action) (hw : StoreOk env w) :
    StoreOk env (step env w a) := by
  cases a with
  | submitSingle singleName singleNumber =>
    obtain ⟨h1, h2, h3⟩ := handleSingleForm_idle env singleName singleNumber w hw.1
    exact storeOk_submission env singleEntry _ w _ (fun _ _ => ⟨rfl, rfl⟩) h1 h2 h3 hw
  | submitBatch batchDataValue =>
    obtain ⟨h1, h2, h3⟩ := handleBatchForm_store env batchDataValue w hw.1
    exact storeOk_submission env batchEntry _ w _ (fun _ _ => ⟨rfl, rfl⟩) h1 h2 h3 hw
  | downloadAll =>
    obtain ⟨h1, h2, h3⟩ := downloadAllBarcodes_world env w
    refine ⟨by rw [step, h3]; exact hw.1, fun e he => ?_⟩
    rw [step, h1] at he
    rw [step, h2]
    exact hw.2 e he
  | clear =>
    exact ⟨hw.1, fun e he => absurd he (by simp [step, clearResults])⟩

theorem storeOk_run (env : Env) (actions : List Action) :
    ∀ w : World, StoreOk env w → StoreOk env (run env w actions) := by
  induction actions with
  | nil => intro w hw; exact hw
  | cons a rest ih =>
    intro w hw
    exact ih (step env w a) (storeOk_step env w a hw)

/-- C8. From the freshly loaded page, after any sequence of single submissions, batch
submissions, bulk downloads and clears, each run to completion: every entry of
`generatedBarcodes` names a record that was posted in a generation call which returned the
entry's result with `success` true; a further single or batch submission leaves the store
as the old store followed by exactly the successful results of its own calls, in the order
of its records; a bulk download leaves the store as it is; and `clearResults` leaves it
empty. -/
theorem store_holds_successes_only (env : Env) (actions : List Action) :
    (∀ e ∈ (run env World.initial actions).generatedBarcodes,
      e.result.success = true ∧
      ∃ (k : Nat) (record : PatientRecord),
        (run env World.initial actions).generateRequests[k]? = some record ∧
          entryRecord e = some record ∧
          generateOutcome (env.fetchGenerate k record) = .ok e.result) ∧
    (∀ singleName singleNumber : JSString,
      (step env (run env World.initial actions)
          (.submitSingle singleName singleNumber)).generatedBarcodes
        = (run env World.initial actions).generatedBarcodes ++
          successfulEntries env singleEntry
            (run env World.initial actions).generateRequests.length
            (singleRecords singleName singleNumber (run env World.initial actions))) ∧
    (∀ batchDataValue : JSString,
      (step env (run env World.initial actions) (.submitBatch batchDataValue)).generatedBarcodes
        = (run env World.initial actions).generatedBarcodes ++
          successfulEntries env batchEntry
            (run env World.initial actions).generateRequests.length
            (parseBatchData (trim batchDataValue))) ∧
    (step env (run env World.initial actions) .downloadAll).generatedBarcodes
      = (run env World.initial actions).generatedBarcodes ∧
    (step env (run env World.initial actions) .clear).generatedBarcodes = [] := by
  have hw := storeOk_run env actions World.initial (storeOk_initial env)
  refine ⟨hw.2, fun singleName singleNumber => ?_, fun batchDataValue => ?_, ?_, rfl⟩
  · exact (handleSingleForm_idle env singleName singleNumber _ hw.1).1
  · exact (handleBatchForm_store env batchDataValue _ hw.1).1
  · exact (downloadAllBarcodes_world env _).1

end BarcodeApp
